import Mathlib

/-!
# Xilinx PS TTC system timer driver (`drivers/timer/xlnx_psttc_timer.c`)

A shallow embedding of the driver.  `u32_t` values are natural numbers below
`2 ^ 32`; every C operation on them is followed by an explicit reduction
modulo `2 ^ 32`.  The memory-mapped timer block is a record with one field per
register the driver touches, and every driver entry point is a function from
the machine state to the new machine state (and its outputs).

The constants that the driver takes from `xlnx_psttc_timer_priv.h` and the
kernel headers (register masks, `XTTC_MAX_INTERVAL_COUNT`, `K_TICKS_FOREVER`)
and the Kconfig / device-tree values are fields of `Config`, so every result
holds for all of their values.
-/

namespace XlnxPsttc

/-! ## Machine integers -/

/-- The modulus of `u32_t` arithmetic, `2 ^ 32`. -/
def U32_MOD : Nat := 4294967296

/-- Addition of two `u32_t` values (wraps). -/
def add32 (a b : Nat) : Nat := (a + b) % U32_MOD

/-- Subtraction of two `u32_t` values (wraps). -/
def sub32 (a b : Nat) : Nat := (a + (U32_MOD - b % U32_MOD)) % U32_MOD

/-- Multiplication of two `u32_t` values (wraps). -/
def mul32 (a b : Nat) : Nat := (a * b) % U32_MOD

/-- The cast `(u32_t)x` of a signed integer. -/
def toU32 (x : Int) : Nat := (x % 4294967296).toNat

/-- Bitwise complement of a `u32_t` value. -/
def not32 (a : Nat) : Nat := (a % U32_MOD) ^^^ 4294967295

/-- Unsigned division; a zero divisor has no result in C. -/
def udiv32 (a b : Nat) : Option Nat := if b = 0 then none else some (a / b)

/-! ## Build configuration -/

/-- Values fixed when the driver is built: Kconfig options, the device-tree
clock frequency, and the constants of the headers the driver includes. -/
structure Config where
  /-- Device tree: `TIMER_DT(XLNX_TTCPS_CLOCK_FREQUENCY)`. -/
  TIMER_CLOCK_FREQUECY : Nat
  /-- Kconfig: `CONFIG_SYS_CLOCK_HW_CYCLES_PER_SEC`. -/
  SYS_CLOCK_HW_CYCLES_PER_SEC : Nat
  /-- Kconfig: `CONFIG_SYS_CLOCK_TICKS_PER_SEC`. -/
  SYS_CLOCK_TICKS_PER_SEC : Nat
  /-- Kconfig: `CONFIG_TICKLESS_KERNEL` is defined. -/
  TICKLESS_KERNEL : Bool
  /-- Kernel header: `K_TICKS_FOREVER`. -/
  K_TICKS_FOREVER : Int
  /-- Private header: `XTTC_MAX_INTERVAL_COUNT`. -/
  XTTC_MAX_INTERVAL_COUNT : Nat
  /-- Private header: `XTTCPS_CNT_CNTRL_DIS_MASK`. -/
  XTTCPS_CNT_CNTRL_DIS_MASK : Nat
  /-- Private header: `XTTCPS_CNT_CNTRL_RESET_VALUE`. -/
  XTTCPS_CNT_CNTRL_RESET_VALUE : Nat
  /-- Private header: `XTTCPS_CNT_CNTRL_RST_MASK`. -/
  XTTCPS_CNT_CNTRL_RST_MASK : Nat
  /-- Private header: `XTTCPS_CNT_CNTRL_MATCH_MASK`. -/
  XTTCPS_CNT_CNTRL_MATCH_MASK : Nat
  /-- Private header: `XTTCPS_IXR_ALL_MASK`. -/
  XTTCPS_IXR_ALL_MASK : Nat
  /-- Private header: `XTTCPS_IXR_MATCH_0_MASK`. -/
  XTTCPS_IXR_MATCH_0_MASK : Nat
deriving Repr, DecidableEq

/-- `#define TICKS_PER_SEC CONFIG_SYS_CLOCK_TICKS_PER_SEC`. -/
def TICKS_PER_SEC (cfg : Config) : Nat := cfg.SYS_CLOCK_TICKS_PER_SEC

/-- `#define CYCLES_PER_SEC TIMER_CLOCK_FREQUECY`. -/
def CYCLES_PER_SEC (cfg : Config) : Nat := cfg.TIMER_CLOCK_FREQUECY

/-- `#define CYCLES_PER_TICK (CYCLES_PER_SEC / TICKS_PER_SEC)`. -/
def CYCLES_PER_TICK (cfg : Config) : Nat := CYCLES_PER_SEC cfg / TICKS_PER_SEC cfg

/-- `#define CYCLES_NEXT_MIN (10000)`. -/
def CYCLES_NEXT_MIN : Nat := 10000

/-- `#define CYCLES_NEXT_MAX (XTTC_MAX_INTERVAL_COUNT)`. -/
def CYCLES_NEXT_MAX (cfg : Config) : Nat := cfg.XTTC_MAX_INTERVAL_COUNT

/-- The three `BUILD_ASSERT`s of the driver.  The third one evaluates
`CYCLES_PER_SEC % TICKS_PER_SEC` in a constant expression, which the compiler
rejects for a zero divisor, so a build that passes has `TICKS_PER_SEC ≠ 0`. -/
def buildAsserts (cfg : Config) : Prop :=
  cfg.TIMER_CLOCK_FREQUECY = cfg.SYS_CLOCK_HW_CYCLES_PER_SEC ∧
  CYCLES_PER_SEC cfg ≥ TICKS_PER_SEC cfg ∧
  (TICKS_PER_SEC cfg ≠ 0 ∧ CYCLES_PER_SEC cfg % TICKS_PER_SEC cfg = 0)

instance (cfg : Config) : Decidable (buildAsserts cfg) := by
  unfold buildAsserts; infer_instance

/-! ## Machine state -/

/-- The registers of the timer block that the driver accesses, and the
driver's static variable. -/
structure State where
  /-- `XTTCPS_COUNT_VALUE_OFFSET`: the free-running counter (hardware-owned). -/
  count : Nat
  /-- `XTTCPS_CNT_CNTRL_OFFSET`. -/
  cnt_cntrl : Nat
  /-- `XTTCPS_CLK_CNTRL_OFFSET`. -/
  clk_cntrl : Nat
  /-- `XTTCPS_INTERVAL_VAL_OFFSET`. -/
  interval_val : Nat
  /-- `XTTCPS_MATCH_0_OFFSET`. -/
  match_0 : Nat
  /-- `XTTCPS_MATCH_1_OFFSET`. -/
  match_1 : Nat
  /-- `XTTCPS_MATCH_2_OFFSET`. -/
  match_2 : Nat
  /-- `XTTCPS_IER_OFFSET`. -/
  ier : Nat
  /-- `XTTCPS_ISR_OFFSET`. -/
  isr : Nat
  /-- `static u32_t last_cycles` (present in tickless builds). -/
  last_cycles : Nat
  /-- Whether `irq_enable(TIMER_IRQ)` has been called. -/
  irq_enabled : Bool
deriving Repr, DecidableEq

/-- All `u32_t` cells of the state hold 32-bit values. -/
def State.wf (s : State) : Prop :=
  s.count < U32_MOD ∧ s.match_0 < U32_MOD ∧ s.last_cycles < U32_MOD

instance (s : State) : Decidable s.wf := by
  unfold State.wf; infer_instance

/-! ## The driver -/

/-- `read_count`: reads the counter register; the read has no effect on the
device. -/
def read_count (s : State) : Nat × State := (s.count, s)

/-- The value `update_match` computes for the match register, with the
minimum distance `nextMin` in place of the constant `CYCLES_NEXT_MIN`. -/
def update_match_value (nextMin cycles match_ : Nat) : Nat :=
  let delta := sub32 match_ cycles
  if delta < nextMin then
    add32 match_ (nextMin - delta)
  else
    match_

/-- `update_match`: clamps the match value and writes it to match register 0. -/
def update_match (cycles match_ : Nat) (s : State) : State :=
  { s with match_0 := update_match_value CYCLES_NEXT_MIN cycles match_ }

/-- `ttc_isr`: returns the argument of `z_clock_announce` and the new state.
The read of the interrupt status register acknowledges the interrupt, which
the hardware does by clearing the register. -/
def ttc_isr (cfg : Config) (s : State) : Option (Nat × State) :=
  let s1 := { s with isr := 0 }
  let (cycles, s2) := read_count s1
  if cfg.TICKLESS_KERNEL then
    match udiv32 (sub32 cycles s2.last_cycles) (CYCLES_PER_TICK cfg) with
    | none => none
    | some ticks => some (ticks, { s2 with last_cycles := cycles })
  else
    let s3 := update_match cycles (add32 cycles (CYCLES_PER_TICK cfg)) s2
    some (1, s3)

/-- `z_clock_driver_init`: returns the status code and the new state.  The
write that sets the reset bit of the counter control register resets the
counter value (the counter is stopped until the last write). -/
def z_clock_driver_init (cfg : Config) (s : State) : Nat × State :=
  let s := { s with cnt_cntrl := cfg.XTTCPS_CNT_CNTRL_DIS_MASK % U32_MOD }
  let s := if cfg.TICKLESS_KERNEL then { s with last_cycles := 0 } else s
  let s := { s with cnt_cntrl := cfg.XTTCPS_CNT_CNTRL_RESET_VALUE % U32_MOD }
  let s := { s with clk_cntrl := 0 }
  let s := { s with interval_val := 0 }
  let s := { s with match_0 := 0 }
  let s := { s with match_1 := 0 }
  let s := { s with match_2 := 0 }
  let s := { s with ier := 0 }
  let s := { s with isr := cfg.XTTCPS_IXR_ALL_MASK % U32_MOD }
  let reg_val := s.cnt_cntrl
  let reg_val := reg_val ||| (cfg.XTTCPS_CNT_CNTRL_RST_MASK % U32_MOD)
  let s := { s with cnt_cntrl := reg_val, count := 0 }
  let reg_val := s.cnt_cntrl
  let reg_val := reg_val ||| (cfg.XTTCPS_CNT_CNTRL_MATCH_MASK % U32_MOD)
  let s := { s with cnt_cntrl := reg_val }
  let reg_val :=
    if cfg.TICKLESS_KERNEL then CYCLES_NEXT_MAX cfg % U32_MOD
    else CYCLES_PER_TICK cfg % U32_MOD
  let s := { s with match_0 := reg_val }
  let s := { s with irq_enabled := true }
  let reg_val := s.ier
  let reg_val := reg_val ||| (cfg.XTTCPS_IXR_MATCH_0_MASK % U32_MOD)
  let s := { s with ier := reg_val }
  let reg_val := s.cnt_cntrl
  let reg_val := reg_val &&& not32 cfg.XTTCPS_CNT_CNTRL_DIS_MASK
  let s := { s with cnt_cntrl := reg_val }
  (0, s)

/-- `z_clock_set_timeout`: `ticks` is an `s32_t`. -/
def z_clock_set_timeout (cfg : Config) (ticks : Int) (_idle : Bool) (s : State) : State :=
  if cfg.TICKLESS_KERNEL then
    let (cycles, s1) := read_count s
    let next_cycles :=
      if ticks = cfg.K_TICKS_FOREVER then
        add32 cycles (CYCLES_NEXT_MAX cfg)
      else
        add32 cycles (mul32 (toU32 ticks) (CYCLES_PER_TICK cfg))
    update_match cycles next_cycles s1
  else
    s

/-- `z_clock_elapsed`: returns the tick count and the state after the call. -/
def z_clock_elapsed (cfg : Config) (s : State) : Option (Nat × State) :=
  if cfg.TICKLESS_KERNEL then
    let (cycles, s1) := read_count s
    match udiv32 (sub32 cycles s1.last_cycles) (CYCLES_PER_TICK cfg) with
    | none => none
    | some ticks => some (ticks, s1)
  else
    some (0, s)

/-- `z_timer_cycle_get_32`. -/
def z_timer_cycle_get_32 (s : State) : Nat × State := read_count s

/-! ## The match scheduler as the specification words it -/

/-- The specification's `computeMatch`: `delta` is the 32-bit modular
difference `desiredCounter - currentCounter`; when `delta` is below the
margin the result is `desiredCounter + (margin - delta)`, again modular, and
otherwise it is `desiredCounter`. -/
def computeMatch (margin : Nat) (currentCounter desiredCounter : Nat) : Nat :=
  let delta : Int := ((desiredCounter : Int) - (currentCounter : Int)) % (2 : Int) ^ 32
  if delta < (margin : Int) then
    (((desiredCounter : Int) + ((margin : Int) - delta)) % (2 : Int) ^ 32).toNat
  else
    desiredCounter

/-- An example build: 100 cycles per tick, the register constants of the
Xilinx TTC. -/
def exampleConfig (tickless : Bool) : Config :=
  { TIMER_CLOCK_FREQUECY := 100000
    SYS_CLOCK_HW_CYCLES_PER_SEC := 100000
    SYS_CLOCK_TICKS_PER_SEC := 1000
    TICKLESS_KERNEL := tickless
    K_TICKS_FOREVER := -1
    XTTC_MAX_INTERVAL_COUNT := 4294967295
    XTTCPS_CNT_CNTRL_DIS_MASK := 1
    XTTCPS_CNT_CNTRL_RESET_VALUE := 33
    XTTCPS_CNT_CNTRL_RST_MASK := 16
    XTTCPS_CNT_CNTRL_MATCH_MASK := 8
    XTTCPS_IXR_ALL_MASK := 63
    XTTCPS_IXR_MATCH_0_MASK := 2 }

/-- A state with the given counter, watermark and match register. -/
def exampleState (count last match_0 : Nat) : State :=
  { count := count, cnt_cntrl := 10, clk_cntrl := 0, interval_val := 0
    match_0 := match_0, match_1 := 0, match_2 := 0, ier := 2, isr := 0
    last_cycles := last, irq_enabled := true }

/-- A build with a 100 MHz timer clock and 100 ticks per second, that is
1000000 cycles per tick. -/
def fastClockConfig (tickless : Bool) : Config :=
  { exampleConfig tickless with
    TIMER_CLOCK_FREQUECY := 100000000
    SYS_CLOCK_HW_CYCLES_PER_SEC := 100000000
    SYS_CLOCK_TICKS_PER_SEC := 100 }

/-- The tick count announced by the interrupt that fires at counter `fire`
after `z_clock_set_timeout cfg ticks idle` ran in state `s`, with nothing in
between. -/
def announcedAfterTimeout (cfg : Config) (ticks : Int) (idle : Bool) (s : State)
    (fire : Nat) : Option Nat :=
  (ttc_isr cfg { z_clock_set_timeout cfg ticks idle s with count := fire % U32_MOD }).map
    Prod.fst

/-- The initial timeout `z_clock_driver_init` writes to match register 0, as
the `u32_t` that `sys_write32` stores. -/
def initialMatch (cfg : Config) : Nat :=
  if cfg.TICKLESS_KERNEL then CYCLES_NEXT_MAX cfg % U32_MOD else CYCLES_PER_TICK cfg % U32_MOD

/-- The constants written to 32-bit registers are 32-bit values. -/
def constantsFit (cfg : Config) : Prop :=
  CYCLES_PER_TICK cfg < U32_MOD ∧ CYCLES_NEXT_MAX cfg < U32_MOD ∧
  cfg.XTTCPS_CNT_CNTRL_MATCH_MASK < U32_MOD ∧ cfg.XTTCPS_IXR_MATCH_0_MASK < U32_MOD

instance (cfg : Config) : Decidable (constantsFit cfg) := by
  unfold constantsFit; infer_instance

/-- Interrupts taken one after the other, the counter reading `c mod 2 ^ 32`
at the interrupt of unwrapped time `c`: the sum of the tick counts announced
and the final state. -/
def runIsrs (cfg : Config) : State → List Nat → Option (Nat × State)
  | s, [] => some (0, s)
  | s, c :: cs =>
    match ttc_isr cfg { s with count := c % U32_MOD } with
    | none => none
    | some (ticks, s1) =>
      match runIsrs cfg s1 cs with
      | none => none
      | some (total, s2) => some (ticks + total, s2)

/-- The last of the unwrapped times `cs`, or `w` when there is none. -/
def lastCounter (w : Nat) : List Nat → Nat
  | [] => w
  | c :: cs => lastCounter c cs

/-- The unwrapped times `cs` follow `w` in non-decreasing order, each less
than `2 ^ 32` cycles after the one before. -/
def paced (w : Nat) : List Nat → Prop
  | [] => True
  | c :: cs => w ≤ c ∧ c - w < U32_MOD ∧ paced c cs

/-! ## Arithmetic lemmas -/

theorem sub32_lt (a b : Nat) : sub32 a b < U32_MOD := by
  unfold sub32 U32_MOD; omega

theorem sub32_eq_of_le {a b : Nat} (ha : a < U32_MOD) (hab : b ≤ a) :
    sub32 a b = a - b := by
  unfold sub32 U32_MOD at *; omega

theorem sub32_add32_cancel {b d : Nat} (hd : d < U32_MOD) :
    sub32 (add32 b d) b = d := by
  unfold sub32 add32 U32_MOD at *; omega

theorem update_match_value_lt {m c d : Nat} (hd : d < U32_MOD) :
    update_match_value m c d < U32_MOD := by
  unfold update_match_value add32
  simp only
  split
  · unfold U32_MOD; omega
  · exact hd

/-- The modular distance of the clamped match from the counter is the larger
of the requested distance and the margin (for a margin that fits 32 bits). -/
theorem sub32_update_match_value {m c d : Nat} (hm : m < U32_MOD) :
    sub32 (update_match_value m c d) c = max (sub32 d c) m := by
  unfold update_match_value add32 sub32 U32_MOD at *
  simp only
  split <;> omega

/-- A build that passes the assertions has at least one cycle per tick. -/
theorem CYCLES_PER_TICK_pos {cfg : Config} (h : buildAsserts cfg) :
    0 < CYCLES_PER_TICK cfg := by
  obtain ⟨_, hge, hne, _⟩ := h
  unfold CYCLES_PER_TICK
  exact Nat.div_pos hge (Nat.pos_of_ne_zero hne)

/-- Modular subtraction of the wrapped values of two unwrapped times that are
less than `2 ^ 32` apart gives their true difference. -/
theorem sub32_unwrapped {x y : Nat} (hxy : x ≤ y) (hlt : y - x < U32_MOD) :
    sub32 (y % U32_MOD) (x % U32_MOD) = y - x := by
  unfold sub32 U32_MOD at *; omega

/-- An unwrapped time `m` at or after `c` is at least as far from `c` as the
modular distance of the wrapped values. -/
theorem sub32_le_unwrapped {c m : Nat} (hcm : c ≤ m) :
    sub32 (m % U32_MOD) (c % U32_MOD) ≤ m - c := by
  unfold sub32 U32_MOD at *; omega

/-- The tick count `ttc_isr` announces in a tickless build. -/
theorem ttc_isr_tickless_fst {cfg : Config} (s : State)
    (hmode : cfg.TICKLESS_KERNEL = true) (hcpt : 0 < CYCLES_PER_TICK cfg) :
    (ttc_isr cfg s).map Prod.fst = some (sub32 s.count s.last_cycles / CYCLES_PER_TICK cfg) := by
  have hne : CYCLES_PER_TICK cfg ≠ 0 := by omega
  simp [ttc_isr, read_count, hmode, udiv32, hne]

/-- What `z_clock_set_timeout` leaves in the state in a tickless build, for a
request that is not `K_TICKS_FOREVER`. -/
theorem z_clock_set_timeout_tickless {cfg : Config} (ticks : Int) (idle : Bool) (s : State)
    (hmode : cfg.TICKLESS_KERNEL = true) (hf : ticks ≠ cfg.K_TICKS_FOREVER) :
    z_clock_set_timeout cfg ticks idle s =
      { s with
        match_0 := (update_match_value CYCLES_NEXT_MIN s.count
          (add32 s.count (mul32 (toU32 ticks) (CYCLES_PER_TICK cfg)))) } := by
  simp [z_clock_set_timeout, read_count, hmode, hf, update_match]

/-- The `u32_t` product `(u32_t)ticks * k`, added to a counter, is the integer
`c + ticks * k` reduced modulo `2 ^ 32`. -/
theorem add32_mul32_toU32 (c k : Nat) (ticks : Int) :
    add32 c (mul32 (toU32 ticks) k) = (((c : Int) + ticks * k) % 2 ^ 32).toNat := by
  have hsplit : ticks * (k : Int)
      = 4294967296 * ((ticks / 4294967296) * k) + (ticks % 4294967296) * k := by
    have := Int.emod_add_ediv ticks 4294967296
    calc ticks * (k : Int) = (ticks % 4294967296 + 4294967296 * (ticks / 4294967296)) * k := by
          rw [this]
      _ = _ := by ring
  have hnn : 0 ≤ ticks % 4294967296 := Int.emod_nonneg _ (by decide)
  have hcast : ((toU32 ticks * k : Nat) : Int) = (ticks % 4294967296) * k := by
    unfold toU32; push_cast; rw [Int.toNat_of_nonneg hnn]
  unfold add32 mul32 U32_MOD
  generalize toU32 ticks * k = p at hcast
  generalize (ticks % 4294967296) * (k : Int) = q at hcast hsplit
  generalize (ticks / 4294967296) * (k : Int) = r at hsplit
  generalize ticks * (k : Int) = x at hsplit
  omega

/-! ## Claims -/

/-- C1: for all 32-bit `currentCounter` and `desiredCounter`, the value
`update_match` writes to the match register lies at least `CYCLES_NEXT_MIN`
(10000) cycles ahead of `currentCounter` in modular distance. -/
theorem update_match_min_distance (s : State) (currentCounter desiredCounter : Nat) :
    (((update_match currentCounter desiredCounter s).match_0 : Int) - currentCounter) % 2 ^ 32
        ≥ 10000 ∧
      sub32 (update_match currentCounter desiredCounter s).match_0 currentCounter
        ≥ CYCLES_NEXT_MIN := by
  simp only [update_match, update_match_value, add32, sub32, U32_MOD, CYCLES_NEXT_MIN]
  norm_num
  split <;> omega

/-- C2: `update_match` computes the specification's `computeMatch` for every
pair of counters and every margin: with `delta` the modular difference
`desiredCounter - currentCounter`, the written value is `desiredCounter` when
`delta ≥ margin` and `desiredCounter + (margin - delta)` modulo `2 ^ 32`
otherwise; with margin 10, `computeMatch 1000 1005` is 1010. -/
theorem update_match_eq_computeMatch (s : State) (margin currentCounter desiredCounter : Nat) :
    update_match_value margin currentCounter desiredCounter
        = computeMatch margin currentCounter desiredCounter ∧
      (update_match currentCounter desiredCounter s).match_0
        = computeMatch CYCLES_NEXT_MIN currentCounter desiredCounter ∧
      computeMatch 10 1000 1005 = 1010 ∧ update_match_value 10 1000 1005 = 1010 := by
  have key : ∀ m c d : Nat, update_match_value m c d = computeMatch m c d := by
    intro m c d
    simp only [update_match_value, computeMatch, add32, sub32, U32_MOD]
    norm_num
    split_ifs <;> omega
  refine ⟨key _ _ _, key _ _ _, ?_, ?_⟩
  · rw [← key]; decide
  · decide

/-- C3: wraparound transparency.  With watermark `b` and true elapsed cycle
count `d < 2 ^ 32`, the counter reads `(b + d) mod 2 ^ 32`, and both `ttc_isr`
and `z_clock_elapsed` compute `d / CYCLES_PER_TICK` ticks, whether or not
`b + d` overflowed. -/
theorem ticks_wraparound_transparent (cfg : Config) (s : State) (b d : Nat)
    (hmode : cfg.TICKLESS_KERNEL = true) (hcpt : 0 < CYCLES_PER_TICK cfg)
    (hb : b < 2 ^ 32) (hd : d < 2 ^ 32) :
    (((b + d) % 2 ^ 32 + (2 ^ 32 - b)) % 2 ^ 32) / CYCLES_PER_TICK cfg
        = d / CYCLES_PER_TICK cfg ∧
      (ttc_isr cfg { s with count := (b + d) % 2 ^ 32, last_cycles := b }).map Prod.fst
        = some (d / CYCLES_PER_TICK cfg) ∧
      (z_clock_elapsed cfg { s with count := (b + d) % 2 ^ 32, last_cycles := b }).map Prod.fst
        = some (d / CYCLES_PER_TICK cfg) := by
  have hd2 : d < U32_MOD := by unfold U32_MOD; omega
  have h1 : sub32 ((b + d) % 4294967296) b = d := by
    have := sub32_add32_cancel (b := b) hd2
    simpa [add32, U32_MOD] using this
  have h0 : ((b + d) % 2 ^ 32 + (2 ^ 32 - b)) % 2 ^ 32 = d := by omega
  have hne : CYCLES_PER_TICK cfg ≠ 0 := by omega
  refine ⟨by rw [h0], ?_, ?_⟩
  · simp [ttc_isr, read_count, hmode, udiv32, hne, h1]
  · simp [z_clock_elapsed, read_count, hmode, udiv32, hne, h1]

theorem ticks_wraparound_transparent_witness :
    (((4294967000 + 1000) % 2 ^ 32 + (2 ^ 32 - 4294967000)) % 2 ^ 32)
          / CYCLES_PER_TICK (exampleConfig true)
        = 1000 / CYCLES_PER_TICK (exampleConfig true) ∧
      (ttc_isr (exampleConfig true)
          { exampleState 0 0 0 with
            count := (4294967000 + 1000) % 2 ^ 32, last_cycles := 4294967000 }).map Prod.fst
        = some (1000 / CYCLES_PER_TICK (exampleConfig true)) ∧
      (z_clock_elapsed (exampleConfig true)
          { exampleState 0 0 0 with
            count := (4294967000 + 1000) % 2 ^ 32, last_cycles := 4294967000 }).map Prod.fst
        = some (1000 / CYCLES_PER_TICK (exampleConfig true)) :=
  ticks_wraparound_transparent (exampleConfig true) (exampleState 0 0 0) 4294967000 1000
    rfl (by decide) (by decide) (by decide)

/-- C4: in tickless mode one invocation of `ttc_isr` at counter `c`, watermark
`w` and match `m` announces `((c - w) mod 2 ^ 32) / CYCLES_PER_TICK` ticks,
sets `last_cycles` to `c` and leaves the match register equal to `m`. -/
theorem ttc_isr_tickless (cfg : Config) (s : State)
    (hmode : cfg.TICKLESS_KERNEL = true) (hcpt : 0 < CYCLES_PER_TICK cfg) :
    ∃ ticks s', ttc_isr cfg s = some (ticks, s') ∧
      (ticks : Int) = (((s.count : Int) - s.last_cycles) % 2 ^ 32) / CYCLES_PER_TICK cfg ∧
      ticks = sub32 s.count s.last_cycles / CYCLES_PER_TICK cfg ∧
      s'.last_cycles = s.count ∧ s'.match_0 = s.match_0 ∧
      s' = { s with isr := 0, last_cycles := s.count } := by
  have hne : CYCLES_PER_TICK cfg ≠ 0 := by omega
  refine ⟨sub32 s.count s.last_cycles / CYCLES_PER_TICK cfg,
    { s with isr := 0, last_cycles := s.count }, ?_, ?_, rfl, rfl, rfl, rfl⟩
  · simp [ttc_isr, read_count, hmode, udiv32, hne]
  · have h : ((sub32 s.count s.last_cycles : Nat) : Int)
        = ((s.count : Int) - s.last_cycles) % 2 ^ 32 := by
      unfold sub32 U32_MOD; omega
    rw [← h]; norm_cast

theorem ttc_isr_tickless_witness :
    ∃ ticks s', ttc_isr (exampleConfig true) (exampleState 250 4294967246 77)
        = some (ticks, s') ∧
      (ticks : Int) = ((((exampleState 250 4294967246 77).count : Int)
          - (exampleState 250 4294967246 77).last_cycles) % 2 ^ 32)
            / CYCLES_PER_TICK (exampleConfig true) ∧
      ticks = sub32 (exampleState 250 4294967246 77).count
          (exampleState 250 4294967246 77).last_cycles / CYCLES_PER_TICK (exampleConfig true) ∧
      s'.last_cycles = (exampleState 250 4294967246 77).count ∧
      s'.match_0 = (exampleState 250 4294967246 77).match_0 ∧
      s' = { exampleState 250 4294967246 77 with
              isr := 0, last_cycles := (exampleState 250 4294967246 77).count } :=
  ttc_isr_tickless (exampleConfig true) (exampleState 250 4294967246 77) rfl (by decide)

/-- C5, as stated, fails: with 1000000 cycles per tick, a timeout of 5000
ticks requested at counter 0 needs 5000000000 cycles, which wraps to
705032704; the interrupt at that match announces 705 ticks, fewer than 5000. -/
theorem tickless_conservation_counterexample :
    ¬ ∀ (cfg : Config) (s : State) (N : Int) (idle : Bool) (w c m f : Nat),
      cfg.TICKLESS_KERNEL = true → buildAsserts cfg →
      -(2 : Int) ^ 31 ≤ N → N < (2 : Int) ^ 31 →
      w ≤ c → c ≤ m → m ≤ f → f - w < 2 ^ 32 →
      s.count = c % 2 ^ 32 → s.last_cycles = w % 2 ^ 32 →
      m % 2 ^ 32 = (z_clock_set_timeout cfg N idle s).match_0 →
      ∃ ticks, announcedAfterTimeout cfg N idle s f = some ticks ∧
        ticks = (f - w) / CYCLES_PER_TICK cfg ∧ N ≤ (ticks : Int) := by
  intro h
  obtain ⟨ticks, h1, h2, h3⟩ :=
    h (fastClockConfig true) (exampleState 0 0 0) 5000 false 0 0 705032704 705032704
      rfl (by decide) (by decide) (by decide) (by decide) (by decide) (by decide)
      (by decide) (by decide) (by decide) (by decide)
  have h4 : (705032704 - 0) / CYCLES_PER_TICK (fastClockConfig true) = 705 := by decide
  rw [h4] at h2
  subst h2
  omega

/-- C5 (amended): when `z_clock_set_timeout cfg N idle` runs at counter `c`
with watermark `w` and the next interrupt fires at `f`, at or after the
programmed match (`w ≤ c ≤ m ≤ f` in unwrapped time, `f - w < 2 ^ 32`), then
`ttc_isr` announces `(f - w) / CYCLES_PER_TICK` ticks, for every `N`; that
number is at least `N` when `N * CYCLES_PER_TICK < 2 ^ 32` (and `N` is not a
non-negative `K_TICKS_FOREVER`). -/
theorem tickless_conservation (cfg : Config) (s : State) (N : Int) (idle : Bool)
    (w c m f : Nat)
    (hmode : cfg.TICKLESS_KERNEL = true) (hbuild : buildAsserts cfg)
    (hwc : w ≤ c) (hcm : c ≤ m) (hmf : m ≤ f) (hfw : f - w < 2 ^ 32)
    (hc : s.count = c % 2 ^ 32) (hw : s.last_cycles = w % 2 ^ 32)
    (hm : m % 2 ^ 32 = (z_clock_set_timeout cfg N idle s).match_0) :
    ∃ ticks, announcedAfterTimeout cfg N idle s f = some ticks ∧
      ticks = (f - w) / CYCLES_PER_TICK cfg ∧
      (N * (CYCLES_PER_TICK cfg : Int) < 2 ^ 32 → (N = cfg.K_TICKS_FOREVER → N < 0) →
        N ≤ (ticks : Int)) := by
  have hcpt := CYCLES_PER_TICK_pos hbuild
  have hU : (2 : Nat) ^ 32 = U32_MOD := by decide
  rw [hU] at hfw hc hw hm
  have hkeep : (z_clock_set_timeout cfg N idle s).last_cycles = s.last_cycles := by
    unfold z_clock_set_timeout update_match read_count
    split <;> rfl
  refine ⟨(f - w) / CYCLES_PER_TICK cfg, ?_, rfl, ?_⟩
  · unfold announcedAfterTimeout
    rw [ttc_isr_tickless_fst _ hmode hcpt]
    simp only [hkeep, hw]
    rw [sub32_unwrapped (by omega) hfw]
  · intro hfit hforever
    rcases lt_or_le N 0 with hneg | hnn
    · have : (0 : Int) ≤ (((f - w) / CYCLES_PER_TICK cfg : Nat) : Int) := Int.ofNat_nonneg _
      omega
    · have hf : N ≠ cfg.K_TICKS_FOREVER := fun h => by have := hforever h; omega
      obtain ⟨n, rfl⟩ := Int.eq_ofNat_of_zero_le hnn
      have hfit2 : n * CYCLES_PER_TICK cfg < U32_MOD := by
        have : ((n * CYCLES_PER_TICK cfg : Nat) : Int) < 2 ^ 32 := by push_cast; exact hfit
        unfold U32_MOD; omega
      have hn : n < U32_MOD := by
        have : n * 1 ≤ n * CYCLES_PER_TICK cfg := Nat.mul_le_mul_left n hcpt
        omega
      have hu : toU32 (n : Int) = n := by
        unfold toU32; unfold U32_MOD at hn; omega
      have hmul : mul32 n (CYCLES_PER_TICK cfg) = n * CYCLES_PER_TICK cfg := by
        unfold mul32; exact Nat.mod_eq_of_lt hfit2
      rw [z_clock_set_timeout_tickless _ _ _ hmode hf] at hm
      simp only [hu, hmul, hc] at hm
      have hdist := sub32_le_unwrapped hcm
      rw [hm, sub32_update_match_value (by decide), sub32_add32_cancel hfit2] at hdist
      have hle : n * CYCLES_PER_TICK cfg ≤ f - w := by
        have := le_max_left (n * CYCLES_PER_TICK cfg) CYCLES_NEXT_MIN
        omega
      have := (Nat.le_div_iff_mul_le hcpt).mpr hle
      exact_mod_cast this

theorem tickless_conservation_witness :
    ∃ ticks, announcedAfterTimeout (fastClockConfig true) 4000 false
        (exampleState 4294967000 4294966000 0) 8294967296 = some ticks ∧
      ticks = (8294967296 - 4294966000) / CYCLES_PER_TICK (fastClockConfig true) ∧
      (4000 : Int) ≤ (ticks : Int) :=
  match tickless_conservation (fastClockConfig true) (exampleState 4294967000 4294966000 0)
      4000 false 4294966000 4294967000 8294967000 8294967296 rfl (by decide) (by decide)
      (by decide) (by decide) (by decide) (by decide) (by decide) (by decide) with
  | ⟨ticks, hrun, hval, hge⟩ => ⟨ticks, hrun, hval, hge (by decide) (by decide)⟩

/-- C6: in tickless mode `z_clock_set_timeout` programs the match register
with `update_match(c, d)`, where `c` is the counter read and `d` is
`(c + CYCLES_NEXT_MAX) mod 2 ^ 32` for `K_TICKS_FOREVER` and
`(c + ticks * CYCLES_PER_TICK) mod 2 ^ 32` otherwise; `K_TICKS_FOREVER` at
counter 500 with `CYCLES_NEXT_MAX = 0xFFFFFFFF` programs match 499. -/
theorem z_clock_set_timeout_match (cfg : Config) (ticks : Int) (idle : Bool) (s : State)
    (hmode : cfg.TICKLESS_KERNEL = true) :
    z_clock_set_timeout cfg ticks idle s =
        update_match s.count
          (if ticks = cfg.K_TICKS_FOREVER then (s.count + CYCLES_NEXT_MAX cfg) % 2 ^ 32
            else (((s.count : Int) + ticks * CYCLES_PER_TICK cfg) % 2 ^ 32).toNat) s ∧
      (z_clock_set_timeout (exampleConfig true) (exampleConfig true).K_TICKS_FOREVER idle
          (exampleState 500 0 0)).match_0 = 499 := by
  constructor
  · simp only [z_clock_set_timeout, read_count, hmode, if_true]
    split
    · rfl
    · rw [add32_mul32_toU32]
  · cases idle <;> decide

theorem z_clock_set_timeout_match_witness :
    z_clock_set_timeout (fastClockConfig true) 7 false (exampleState 1234 0 0) =
        update_match (exampleState 1234 0 0).count
          (if (7 : Int) = (fastClockConfig true).K_TICKS_FOREVER
            then ((exampleState 1234 0 0).count + CYCLES_NEXT_MAX (fastClockConfig true)) % 2 ^ 32
            else ((((exampleState 1234 0 0).count : Int)
              + 7 * CYCLES_PER_TICK (fastClockConfig true)) % 2 ^ 32).toNat)
          (exampleState 1234 0 0) ∧
      (z_clock_set_timeout (exampleConfig true) (exampleConfig true).K_TICKS_FOREVER false
          (exampleState 500 0 0)).match_0 = 499 :=
  z_clock_set_timeout_match (fastClockConfig true) 7 false (exampleState 1234 0 0) rfl

/-- C7: `z_clock_set_timeout` never changes `last_cycles`, also when a second
call replaces the timeout of a first one, so `z_clock_elapsed` at the same
counter value returns the same result before and after the call. -/
theorem z_clock_set_timeout_keeps_last_cycles (cfg : Config) (ticks ticks2 : Int)
    (idle idle2 : Bool) (s : State) :
    (z_clock_set_timeout cfg ticks idle s).last_cycles = s.last_cycles ∧
      (z_clock_set_timeout cfg ticks2 idle2 (z_clock_set_timeout cfg ticks idle s)).last_cycles
        = s.last_cycles ∧
      ∀ c : Nat,
        (z_clock_elapsed cfg { z_clock_set_timeout cfg ticks idle s with count := c }).map
            Prod.fst
          = (z_clock_elapsed cfg { s with count := c }).map Prod.fst := by
  have keep : ∀ (t : Int) (i : Bool) (x : State),
      (z_clock_set_timeout cfg t i x).last_cycles = x.last_cycles := by
    intro t i x
    unfold z_clock_set_timeout update_match read_count
    split <;> rfl
  refine ⟨keep _ _ _, by rw [keep, keep], ?_⟩
  intro c
  have h := keep ticks idle s
  unfold z_clock_elapsed read_count
  simp only [h]
  split
  · cases udiv32 (sub32 c s.last_cycles) (CYCLES_PER_TICK cfg) <;> rfl
  · rfl

/-- C8: in tickful mode one invocation of `ttc_isr` at counter `c` announces
exactly 1 tick, and the match it programs is `(c + CYCLES_PER_TICK) mod 2 ^ 32`
before margin clamping: that value is what it hands to `update_match`.  The
register then holds
`(c + max (CYCLES_PER_TICK mod 2 ^ 32) CYCLES_NEXT_MIN) mod 2 ^ 32`, which is
`(c + CYCLES_PER_TICK) mod 2 ^ 32` itself when `CYCLES_PER_TICK mod 2 ^ 32` is
at least `CYCLES_NEXT_MIN`. -/
theorem ttc_isr_tickful (cfg : Config) (s : State)
    (hmode : cfg.TICKLESS_KERNEL = false) :
    ∃ s', ttc_isr cfg s = some (1, s') ∧
      s' = update_match s.count ((s.count + CYCLES_PER_TICK cfg) % 2 ^ 32) { s with isr := 0 } ∧
      s'.match_0 = (s.count + max (CYCLES_PER_TICK cfg % 2 ^ 32) CYCLES_NEXT_MIN) % 2 ^ 32 ∧
      (CYCLES_NEXT_MIN ≤ CYCLES_PER_TICK cfg % 2 ^ 32 →
        s'.match_0 = (s.count + CYCLES_PER_TICK cfg) % 2 ^ 32) := by
  refine ⟨_, by simp [ttc_isr, read_count, hmode]; rfl, rfl, ?_, ?_⟩
  · simp only [update_match, update_match_value, add32, sub32, U32_MOD, CYCLES_NEXT_MIN]
    norm_num
    split <;> omega
  · intro h
    simp only [update_match, update_match_value, add32, sub32, U32_MOD, CYCLES_NEXT_MIN] at h ⊢
    norm_num at h ⊢
    intro h'
    omega

theorem ttc_isr_tickful_witness :
    ∃ s', ttc_isr (fastClockConfig false) (exampleState 4294000000 0 0) = some (1, s') ∧
      s' = update_match (exampleState 4294000000 0 0).count
        (((exampleState 4294000000 0 0).count + CYCLES_PER_TICK (fastClockConfig false)) % 2 ^ 32)
        { exampleState 4294000000 0 0 with isr := 0 } ∧
      s'.match_0 = ((exampleState 4294000000 0 0).count
        + max (CYCLES_PER_TICK (fastClockConfig false) % 2 ^ 32) CYCLES_NEXT_MIN) % 2 ^ 32 ∧
      (CYCLES_NEXT_MIN ≤ CYCLES_PER_TICK (fastClockConfig false) % 2 ^ 32 →
        s'.match_0 = ((exampleState 4294000000 0 0).count
          + CYCLES_PER_TICK (fastClockConfig false)) % 2 ^ 32) :=
  ttc_isr_tickful (fastClockConfig false) (exampleState 4294000000 0 0) rfl

/-- C9: in tickless mode `z_clock_elapsed` is a pure read: it returns
`((counter - last_cycles) mod 2 ^ 32) / CYCLES_PER_TICK` and leaves the whole
state (counter, match register, `last_cycles`) unchanged, so a second call on
the resulting state returns the same value. -/
theorem z_clock_elapsed_pure (cfg : Config) (s : State)
    (hmode : cfg.TICKLESS_KERNEL = true) (hcpt : 0 < CYCLES_PER_TICK cfg) :
    ∃ ticks, z_clock_elapsed cfg s = some (ticks, s) ∧
      (ticks : Int) = (((s.count : Int) - s.last_cycles) % 2 ^ 32) / CYCLES_PER_TICK cfg ∧
      ∀ r, z_clock_elapsed cfg s = some r → z_clock_elapsed cfg r.2 = some (ticks, r.2) := by
  have hne : CYCLES_PER_TICK cfg ≠ 0 := by omega
  have hrun : z_clock_elapsed cfg s
      = some (sub32 s.count s.last_cycles / CYCLES_PER_TICK cfg, s) := by
    simp [z_clock_elapsed, read_count, hmode, udiv32, hne]
  refine ⟨_, hrun, ?_, ?_⟩
  · have h : ((sub32 s.count s.last_cycles : Nat) : Int)
        = ((s.count : Int) - s.last_cycles) % 2 ^ 32 := by
      unfold sub32 U32_MOD; omega
    rw [← h]; norm_cast
  · intro r hr
    rw [hrun] at hr
    cases hr
    exact hrun

theorem z_clock_elapsed_pure_witness :
    ∃ ticks, z_clock_elapsed (exampleConfig true) (exampleState 250 4294967246 77)
        = some (ticks, exampleState 250 4294967246 77) ∧
      (ticks : Int) = ((((exampleState 250 4294967246 77).count : Int)
          - (exampleState 250 4294967246 77).last_cycles) % 2 ^ 32)
            / CYCLES_PER_TICK (exampleConfig true) ∧
      ∀ r, z_clock_elapsed (exampleConfig true) (exampleState 250 4294967246 77) = some r →
        z_clock_elapsed (exampleConfig true) r.2 = some (ticks, r.2) :=
  z_clock_elapsed_pure (exampleConfig true) (exampleState 250 4294967246 77) rfl (by decide)

/-- C10, as stated, fails for `z_clock_driver_init`: in a tickful build with
100 cycles per tick it resets the counter to 0 and leaves match register 0 at
100, only 100 cycles ahead of the counter, less than `CYCLES_NEXT_MIN`. -/
theorem match_min_distance_counterexample :
    buildAsserts (exampleConfig false) ∧
      (z_clock_driver_init (exampleConfig false) (exampleState 777 0 0)).2.count = 0 ∧
      (z_clock_driver_init (exampleConfig false) (exampleState 777 0 0)).2.match_0 = 100 ∧
      ¬ CYCLES_NEXT_MIN ≤
        sub32 (z_clock_driver_init (exampleConfig false) (exampleState 777 0 0)).2.match_0
          (z_clock_driver_init (exampleConfig false) (exampleState 777 0 0)).2.count := by
  decide

/-- C10 (amended): the operations that program the match register through
`update_match` (`ttc_isr` in tickful mode, `z_clock_set_timeout` in tickless
mode) leave it at least `CYCLES_NEXT_MIN` cycles ahead of the counter value
they read, for every `CYCLES_PER_TICK`.  `z_clock_driver_init` writes its
initial match (`CYCLES_PER_TICK` in tickful mode, `CYCLES_NEXT_MAX` in tickless
mode) unclamped, with the counter reset to 0, so the distance it leaves is the
initial match itself, which reaches `CYCLES_NEXT_MIN` exactly when that value
does. -/
theorem match_min_distance (cfg : Config) (ticks : Int) (idle : Bool) (s : State) :
    (cfg.TICKLESS_KERNEL = false →
        ∃ s', ttc_isr cfg s = some (1, s') ∧ CYCLES_NEXT_MIN ≤ sub32 s'.match_0 s.count) ∧
      (cfg.TICKLESS_KERNEL = true →
        CYCLES_NEXT_MIN ≤ sub32 (z_clock_set_timeout cfg ticks idle s).match_0 s.count) ∧
      ((z_clock_driver_init cfg s).2.count = 0 ∧
        (z_clock_driver_init cfg s).2.match_0 = initialMatch cfg ∧
        sub32 (z_clock_driver_init cfg s).2.match_0 (z_clock_driver_init cfg s).2.count
          = initialMatch cfg ∧
        (CYCLES_NEXT_MIN ≤
            sub32 (z_clock_driver_init cfg s).2.match_0 (z_clock_driver_init cfg s).2.count
          ↔ CYCLES_NEXT_MIN ≤ initialMatch cfg)) := by
  have hclamp : ∀ (c d : Nat) (x : State),
      CYCLES_NEXT_MIN ≤ sub32 (update_match c d x).match_0 c := by
    intro c d x
    have h := sub32_update_match_value (m := CYCLES_NEXT_MIN) (c := c) (d := d) (by decide)
    simp only [update_match]
    rw [h]
    exact le_max_right _ _
  have hcount : (z_clock_driver_init cfg s).2.count = 0 := by
    simp [z_clock_driver_init]
  have hmatch : (z_clock_driver_init cfg s).2.match_0 = initialMatch cfg := by
    simp [z_clock_driver_init, initialMatch]
  have hlt : initialMatch cfg < U32_MOD := by
    unfold initialMatch U32_MOD; split <;> omega
  have hdist : sub32 (z_clock_driver_init cfg s).2.match_0 (z_clock_driver_init cfg s).2.count
      = initialMatch cfg := by
    rw [hcount, hmatch]
    unfold sub32 U32_MOD at *; omega
  refine ⟨?_, ?_, hcount, hmatch, hdist, by rw [hdist]⟩
  · intro hmode
    refine ⟨_, by simp [ttc_isr, read_count, hmode]; rfl, ?_⟩
    exact hclamp _ _ _
  · intro hmode
    simp only [z_clock_set_timeout, read_count, hmode, if_true]
    exact hclamp _ _ _

theorem match_min_distance_witness :
    (∃ s', ttc_isr (exampleConfig false) (exampleState 4294967290 0 0) = some (1, s') ∧
        CYCLES_NEXT_MIN ≤ sub32 s'.match_0 (exampleState 4294967290 0 0).count) ∧
      CYCLES_NEXT_MIN ≤
        sub32 (z_clock_set_timeout (exampleConfig true) 3 false
          (exampleState 4294967290 0 0)).match_0 (exampleState 4294967290 0 0).count ∧
      (z_clock_driver_init (exampleConfig true) (exampleState 4294967290 0 0)).2.match_0
        = initialMatch (exampleConfig true) :=
  ⟨(match_min_distance (exampleConfig false) 3 false (exampleState 4294967290 0 0)).1 rfl,
    (match_min_distance (exampleConfig true) 3 false (exampleState 4294967290 0 0)).2.1 rfl,
    (match_min_distance (exampleConfig true) 3 false (exampleState 4294967290 0 0)).2.2.2.1⟩

/-! ## Bit masks -/

/-- Clearing the bits of a mask leaves none of them set. -/
theorem and_not32_and (x d : Nat) : (x &&& not32 d) &&& d = 0 := by
  apply Nat.eq_of_testBit_eq
  intro i
  have h1 : (4294967295 : Nat) = 2 ^ 32 - 1 := by norm_num
  have h2 : (4294967296 : Nat) = 2 ^ 32 := by norm_num
  unfold not32 U32_MOD
  rw [h1, h2]
  simp only [Nat.testBit_and, Nat.testBit_xor, Nat.testBit_mod_two_pow,
    Nat.testBit_two_pow_sub_one, Nat.zero_testBit]
  by_cases hi : i < 32 <;> simp [hi]

/-- Bits of a 32-bit mask that were set stay set when a disjoint mask is
cleared. -/
theorem or_and_not32_and (x m d : Nat) (hm : m < U32_MOD) (hd : m &&& d = 0) :
    ((x ||| m) &&& not32 d) &&& m = m := by
  apply Nat.eq_of_testBit_eq
  intro i
  have h1 : (4294967295 : Nat) = 2 ^ 32 - 1 := by norm_num
  have h2 : (4294967296 : Nat) = 2 ^ 32 := by norm_num
  have hdi : (m &&& d).testBit i = false := by rw [hd]; simp
  rw [Nat.testBit_and] at hdi
  unfold not32 U32_MOD at *
  rw [h1, h2]
  simp only [Nat.testBit_and, Nat.testBit_or, Nat.testBit_xor, Nat.testBit_mod_two_pow,
    Nat.testBit_two_pow_sub_one]
  by_cases hi : i < 32
  · simp [hi]
    cases hmi : m.testBit i <;> simp_all
  · have hfalse : m.testBit i = false := by
      apply Nat.testBit_lt_two_pow
      calc m < 2 ^ 32 := by omega
        _ ≤ 2 ^ i := Nat.pow_le_pow_right (by norm_num) (by omega)
    simp [hfalse]

/-! ## Claims on initialisation, accumulation and totality -/

/-- C11: from any prior state `z_clock_driver_init` returns 0 and leaves match
register 0 equal to `CYCLES_PER_TICK` in tickful mode (100 for 100 cycles per
tick) and to `CYCLES_NEXT_MAX` in tickless mode, `last_cycles = 0` in tickless
mode, the match-0 bit set in the interrupt enable register, the match mode
bit set and the counter-disable bit cleared in the counter control
register. -/
theorem z_clock_driver_init_state (cfg : Config) (s : State)
    (hfit : constantsFit cfg)
    (hdisj : cfg.XTTCPS_CNT_CNTRL_MATCH_MASK &&& cfg.XTTCPS_CNT_CNTRL_DIS_MASK = 0) :
    (z_clock_driver_init cfg s).1 = 0 ∧
      (cfg.TICKLESS_KERNEL = false →
        (z_clock_driver_init cfg s).2.match_0 = CYCLES_PER_TICK cfg) ∧
      (cfg.TICKLESS_KERNEL = true →
        (z_clock_driver_init cfg s).2.match_0 = CYCLES_NEXT_MAX cfg ∧
        (z_clock_driver_init cfg s).2.last_cycles = 0) ∧
      (z_clock_driver_init cfg s).2.ier &&& cfg.XTTCPS_IXR_MATCH_0_MASK
        = cfg.XTTCPS_IXR_MATCH_0_MASK ∧
      (z_clock_driver_init cfg s).2.cnt_cntrl &&& cfg.XTTCPS_CNT_CNTRL_MATCH_MASK
        = cfg.XTTCPS_CNT_CNTRL_MATCH_MASK ∧
      (z_clock_driver_init cfg s).2.cnt_cntrl &&& cfg.XTTCPS_CNT_CNTRL_DIS_MASK = 0 ∧
      (z_clock_driver_init (exampleConfig false) s).2.match_0 = 100 := by
  obtain ⟨hcpt, hmax, hmm, hm0⟩ := hfit
  refine ⟨rfl, ?_, ?_, ?_, ?_, ?_, ?_⟩
  · intro hmode
    simp [z_clock_driver_init, hmode, Nat.mod_eq_of_lt hcpt]
  · intro hmode
    simp [z_clock_driver_init, hmode, Nat.mod_eq_of_lt hmax]
  · simp [z_clock_driver_init, Nat.mod_eq_of_lt hm0]
  · simp only [z_clock_driver_init, Nat.mod_eq_of_lt hmm]
    exact or_and_not32_and _ _ _ hmm hdisj
  · simp only [z_clock_driver_init]
    exact and_not32_and _ _
  · simp [z_clock_driver_init, exampleConfig, CYCLES_PER_TICK, CYCLES_PER_SEC, TICKS_PER_SEC,
      U32_MOD]

theorem z_clock_driver_init_state_witness :
    (z_clock_driver_init (exampleConfig false) (exampleState 777 55 66)).2.match_0
        = CYCLES_PER_TICK (exampleConfig false) ∧
      ((z_clock_driver_init (exampleConfig true) (exampleState 777 55 66)).2.match_0
          = CYCLES_NEXT_MAX (exampleConfig true) ∧
        (z_clock_driver_init (exampleConfig true) (exampleState 777 55 66)).2.last_cycles = 0) ∧
      (z_clock_driver_init (exampleConfig true) (exampleState 777 55 66)).2.cnt_cntrl
        &&& (exampleConfig true).XTTCPS_CNT_CNTRL_DIS_MASK = 0 :=
  ⟨(z_clock_driver_init_state (exampleConfig false) (exampleState 777 55 66)
      (by decide) (by decide)).2.1 rfl,
    (z_clock_driver_init_state (exampleConfig true) (exampleState 777 55 66)
      (by decide) (by decide)).2.2.1 rfl,
    (z_clock_driver_init_state (exampleConfig true) (exampleState 777 55 66)
      (by decide) (by decide)).2.2.2.2.2.1⟩

/-- The result of `ttc_isr` in a tickless build. -/
theorem ttc_isr_tickless_eq {cfg : Config} (s : State)
    (hmode : cfg.TICKLESS_KERNEL = true) (hcpt : 0 < CYCLES_PER_TICK cfg) :
    ttc_isr cfg s = some (sub32 s.count s.last_cycles / CYCLES_PER_TICK cfg,
      { s with isr := 0, last_cycles := s.count }) := by
  have hne : CYCLES_PER_TICK cfg ≠ 0 := by omega
  simp [ttc_isr, read_count, hmode, udiv32, hne]

/-- One step of `runIsrs` in a tickless build. -/
theorem runIsrs_cons_tickless {cfg : Config} (s : State) (c : Nat) (cs : List Nat)
    (hmode : cfg.TICKLESS_KERNEL = true) (hcpt : 0 < CYCLES_PER_TICK cfg) :
    runIsrs cfg s (c :: cs) =
      (runIsrs cfg { s with count := c % U32_MOD, isr := 0, last_cycles := c % U32_MOD } cs).map
        (fun r => (sub32 (c % U32_MOD) s.last_cycles / CYCLES_PER_TICK cfg + r.1, r.2)) := by
  rw [runIsrs, ttc_isr_tickless_eq _ hmode hcpt]
  simp only
  cases runIsrs cfg { s with count := c % U32_MOD, isr := 0, last_cycles := c % U32_MOD } cs
    <;> rfl

/-- C12, as stated, fails: with 100 cycles per tick and watermark 0, the
interrupts at counters 150 and 300 announce 1 + 1 = 2 ticks, while 300 cycles
are 3 ticks; the 50 cycles left over at the first interrupt are dropped when
`last_cycles` is set to the counter. -/
theorem remainder_retained_counterexample :
    ¬ ∀ (cfg : Config) (s : State) (w c1 c2 : Nat),
      cfg.TICKLESS_KERNEL = true → buildAsserts cfg →
      w ≤ c1 → c1 ≤ c2 → c2 - w < 2 ^ 32 → s.last_cycles = w % 2 ^ 32 →
      (runIsrs cfg s [c1, c2]).map Prod.fst = some ((c2 - w) / CYCLES_PER_TICK cfg) := by
  intro h
  have h1 := h (exampleConfig true) (exampleState 0 0 0) 0 150 300
    rfl (by decide) (by decide) (by decide) (by decide) (by decide)
  have h2 : (runIsrs (exampleConfig true) (exampleState 0 0 0) [150, 300]).map Prod.fst
      = some 2 := by decide
  have h3 : (300 - 0) / CYCLES_PER_TICK (exampleConfig true) = 3 := by decide
  rw [h2, h3] at h1
  cases h1

/-- C12 (amended): for a watermark `w` and two consecutive `ttc_isr`
invocations at counters `c1` then `c2` (`w ≤ c1 ≤ c2` in unwrapped time,
`c2 - w < 2 ^ 32`), the two interrupts announce
`(c1 - w) / CYCLES_PER_TICK + (c2 - c1) / CYCLES_PER_TICK` ticks in total.
That is at most `(c2 - w) / CYCLES_PER_TICK` and at least one less, and equal
to it exactly when the two remainders `(c1 - w) mod CYCLES_PER_TICK` and
`(c2 - c1) mod CYCLES_PER_TICK` sum to less than `CYCLES_PER_TICK`. -/
theorem remainder_not_carried (cfg : Config) (s : State) (w c1 c2 : Nat)
    (hmode : cfg.TICKLESS_KERNEL = true) (hbuild : buildAsserts cfg)
    (hw1 : w ≤ c1) (h12 : c1 ≤ c2) (hlt : c2 - w < 2 ^ 32)
    (hw : s.last_cycles = w % 2 ^ 32) :
    ∃ total, (runIsrs cfg s [c1, c2]).map Prod.fst = some total ∧
      total = (c1 - w) / CYCLES_PER_TICK cfg + (c2 - c1) / CYCLES_PER_TICK cfg ∧
      total ≤ (c2 - w) / CYCLES_PER_TICK cfg ∧
      (c2 - w) / CYCLES_PER_TICK cfg ≤ total + 1 ∧
      (total = (c2 - w) / CYCLES_PER_TICK cfg ↔
        (c1 - w) % CYCLES_PER_TICK cfg + (c2 - c1) % CYCLES_PER_TICK cfg
          < CYCLES_PER_TICK cfg) := by
  have hcpt := CYCLES_PER_TICK_pos hbuild
  have hU : (2 : Nat) ^ 32 = U32_MOD := by decide
  rw [hU] at hlt hw
  have hrun : (runIsrs cfg s [c1, c2]).map Prod.fst
      = some ((c1 - w) / CYCLES_PER_TICK cfg + (c2 - c1) / CYCLES_PER_TICK cfg) := by
    rw [runIsrs_cons_tickless _ _ _ hmode hcpt, runIsrs_cons_tickless _ _ _ hmode hcpt]
    simp only [runIsrs, Option.map_some', hw]
    rw [sub32_unwrapped hw1 (by omega), sub32_unwrapped h12 (by omega)]
    simp
  have hsplit : c2 - w = (c1 - w) + (c2 - c1) := by omega
  have hdiv := Nat.add_div (a := c1 - w) (b := c2 - c1) hcpt
  rw [← hsplit] at hdiv
  refine ⟨_, hrun, rfl, ?_, ?_, ?_⟩
  · rw [hdiv]; omega
  · rw [hdiv]; split <;> omega
  · rw [hdiv]; split <;> omega

theorem remainder_not_carried_witness :
    ∃ total, (runIsrs (exampleConfig true) (exampleState 0 4294967000 0)
        [4294967200, 4294967596]).map Prod.fst = some total ∧
      total = (4294967200 - 4294967000) / CYCLES_PER_TICK (exampleConfig true)
        + (4294967596 - 4294967200) / CYCLES_PER_TICK (exampleConfig true) ∧
      total ≤ (4294967596 - 4294967000) / CYCLES_PER_TICK (exampleConfig true) ∧
      (4294967596 - 4294967000) / CYCLES_PER_TICK (exampleConfig true) ≤ total + 1 ∧
      (total = (4294967596 - 4294967000) / CYCLES_PER_TICK (exampleConfig true) ↔
        (4294967200 - 4294967000) % CYCLES_PER_TICK (exampleConfig true)
          + (4294967596 - 4294967200) % CYCLES_PER_TICK (exampleConfig true)
          < CYCLES_PER_TICK (exampleConfig true)) :=
  remainder_not_carried (exampleConfig true) (exampleState 0 4294967000 0)
    4294967000 4294967200 4294967596 rfl (by decide) (by decide) (by decide) (by decide)
    (by decide)

/-- C13: for every configuration with `CYCLES_PER_SEC ≥ TICKS_PER_SEC`,
`CYCLES_PER_SEC % TICKS_PER_SEC = 0` and `TICKS_PER_SEC ≥ 1`,
`CYCLES_PER_TICK` is at least 1 and `CYCLES_PER_TICK * TICKS_PER_SEC =
CYCLES_PER_SEC`; the divisions in `ttc_isr` and `z_clock_elapsed` have a
non-zero divisor, so both return a result on every state, and every operation
maps 32-bit states to 32-bit states and 32-bit tick counts. -/
theorem runtime_total (cfg : Config)
    (hge : CYCLES_PER_SEC cfg ≥ TICKS_PER_SEC cfg)
    (hdvd : CYCLES_PER_SEC cfg % TICKS_PER_SEC cfg = 0)
    (htps : TICKS_PER_SEC cfg ≥ 1) :
    1 ≤ CYCLES_PER_TICK cfg ∧
      CYCLES_PER_TICK cfg * TICKS_PER_SEC cfg = CYCLES_PER_SEC cfg ∧
      (∀ a, udiv32 a (CYCLES_PER_TICK cfg) = some (a / CYCLES_PER_TICK cfg)) ∧
      (∀ s : State, ∃ ticks s', ttc_isr cfg s = some (ticks, s') ∧
        (s.wf → ticks < U32_MOD ∧ s'.wf)) ∧
      (∀ s : State, ∃ ticks s', z_clock_elapsed cfg s = some (ticks, s') ∧
        (s.wf → ticks < U32_MOD ∧ s'.wf)) ∧
      (∀ (s : State) (ticks : Int) (idle : Bool),
        s.wf → (z_clock_set_timeout cfg ticks idle s).wf) ∧
      (∀ s : State, s.wf → (z_clock_driver_init cfg s).2.wf) := by
  have hpos : 1 ≤ CYCLES_PER_TICK cfg := by
    unfold CYCLES_PER_TICK
    exact Nat.div_pos hge htps
  have hne : CYCLES_PER_TICK cfg ≠ 0 := by omega
  have hclamp : ∀ c d : Nat, update_match_value CYCLES_NEXT_MIN c (add32 c d) < U32_MOD := by
    intro c d
    apply update_match_value_lt
    unfold add32 U32_MOD; omega
  refine ⟨hpos, ?_, ?_, ?_, ?_, ?_, ?_⟩
  · unfold CYCLES_PER_TICK
    exact Nat.div_mul_cancel (Nat.dvd_of_mod_eq_zero hdvd)
  · intro a
    simp [udiv32, hne]
  · intro s
    cases hmode : cfg.TICKLESS_KERNEL
    · refine ⟨1, _, by simp [ttc_isr, read_count, hmode]; rfl, ?_⟩
      intro hwf
      obtain ⟨h1, _, h3⟩ := hwf
      exact ⟨by decide, h1, hclamp _ _, h3⟩
    · refine ⟨_, _, ttc_isr_tickless_eq s hmode hpos, ?_⟩
      intro hwf
      obtain ⟨h1, h2, _⟩ := hwf
      refine ⟨?_, h1, h2, h1⟩
      exact lt_of_le_of_lt (Nat.div_le_self _ _) (sub32_lt _ _)
  · intro s
    cases hmode : cfg.TICKLESS_KERNEL
    · exact ⟨0, s, by simp [z_clock_elapsed, hmode], fun hwf => ⟨by decide, hwf⟩⟩
    · refine ⟨sub32 s.count s.last_cycles / CYCLES_PER_TICK cfg, s,
        by simp [z_clock_elapsed, read_count, hmode, udiv32, hne], ?_⟩
      intro hwf
      exact ⟨lt_of_le_of_lt (Nat.div_le_self _ _) (sub32_lt _ _), hwf⟩
  · intro s ticks idle hwf
    obtain ⟨h1, h2, h3⟩ := hwf
    unfold z_clock_set_timeout read_count
    cases hmode : cfg.TICKLESS_KERNEL
    · exact ⟨h1, h2, h3⟩
    · simp only [if_true]
      split
      · exact ⟨h1, hclamp _ _, h3⟩
      · exact ⟨h1, hclamp _ _, h3⟩
  · intro s hwf
    obtain ⟨_, _, h3⟩ := hwf
    have hm : (z_clock_driver_init cfg s).2.match_0 < U32_MOD := by
      simp only [z_clock_driver_init]
      split <;> exact Nat.mod_lt _ (by decide)
    have hl : (z_clock_driver_init cfg s).2.last_cycles < U32_MOD := by
      simp only [z_clock_driver_init]
      cases cfg.TICKLESS_KERNEL
      · exact h3
      · simp [U32_MOD]
    exact ⟨by simp [z_clock_driver_init, U32_MOD], hm, hl⟩

theorem runtime_total_witness :
    1 ≤ CYCLES_PER_TICK (fastClockConfig true) ∧
      CYCLES_PER_TICK (fastClockConfig true) * TICKS_PER_SEC (fastClockConfig true)
        = CYCLES_PER_SEC (fastClockConfig true) ∧
      ∃ ticks s', ttc_isr (fastClockConfig true) (exampleState 5000000 0 0)
        = some (ticks, s') ∧
        ((exampleState 5000000 0 0).wf → ticks < U32_MOD ∧ s'.wf) :=
  ⟨(runtime_total (fastClockConfig true) (by decide) (by decide) (by decide)).1,
    (runtime_total (fastClockConfig true) (by decide) (by decide) (by decide)).2.1,
    (runtime_total (fastClockConfig true) (by decide) (by decide) (by decide)).2.2.2.1
      (exampleState 5000000 0 0)⟩

/-- C14: in tickful mode `z_clock_set_timeout` changes nothing, whatever its
arguments, and `z_clock_elapsed` returns 0 (and changes nothing either). -/
theorem tickful_noop (cfg : Config) (ticks : Int) (idle : Bool) (s : State)
    (hmode : cfg.TICKLESS_KERNEL = false) :
    z_clock_set_timeout cfg ticks idle s = s ∧ z_clock_elapsed cfg s = some (0, s) := by
  constructor
  · simp [z_clock_set_timeout, hmode]
  · simp [z_clock_elapsed, hmode]

theorem tickful_noop_witness :
    z_clock_set_timeout (exampleConfig false) 25 true (exampleState 123456 0 130000)
        = exampleState 123456 0 130000 ∧
      z_clock_elapsed (exampleConfig false) (exampleState 123456 0 130000)
        = some (0, exampleState 123456 0 130000) :=
  tickful_noop (exampleConfig false) 25 true (exampleState 123456 0 130000) rfl

/-! ## Claims on sequences of interrupts and on the clamp -/

/-- Over a paced sequence of interrupts the announced ticks, converted back to
cycles, never exceed the cycles that passed since the watermark. -/
theorem runIsrs_cycles_le {cfg : Config} (hmode : cfg.TICKLESS_KERNEL = true)
    (hcpt : 0 < CYCLES_PER_TICK cfg) :
    ∀ (cs : List Nat) (w : Nat) (s : State), s.last_cycles = w % U32_MOD → paced w cs →
      ∃ total s', runIsrs cfg s cs = some (total, s') ∧
        total * CYCLES_PER_TICK cfg ≤ lastCounter w cs - w ∧ w ≤ lastCounter w cs := by
  intro cs
  induction cs with
  | nil =>
    intro w s _ _
    exact ⟨0, s, rfl, by simp [lastCounter], le_refl _⟩
  | cons c rest ih =>
    intro w s hw hp
    obtain ⟨hwc, hgap, hrest⟩ := hp
    obtain ⟨total, s', hrun, hle, hmono⟩ :=
      ih c { s with count := c % U32_MOD, isr := 0, last_cycles := c % U32_MOD } rfl hrest
    refine ⟨sub32 (c % U32_MOD) s.last_cycles / CYCLES_PER_TICK cfg + total, s', ?_, ?_, ?_⟩
    · rw [runIsrs_cons_tickless _ _ _ hmode hcpt, hrun]
      rfl
    · rw [hw, sub32_unwrapped hwc hgap]
      have hfloor := Nat.div_mul_le_self (c - w) (CYCLES_PER_TICK cfg)
      simp only [lastCounter]
      rw [Nat.add_mul]
      omega
    · simp only [lastCounter]
      omega

/-- C15: kernel time never runs ahead of hardware time in tickless mode.
Starting from watermark `w`, for every finite sequence of `ttc_isr`
invocations at non-decreasing unwrapped counter values with each gap (and the
first one from `w`) below `2 ^ 32`, the total number of ticks announced is at
most `(cn - w) / CYCLES_PER_TICK`, `cn` being the last counter value. -/
theorem kernel_time_not_ahead (cfg : Config) (s : State) (w : Nat) (cs : List Nat)
    (hmode : cfg.TICKLESS_KERNEL = true) (hbuild : buildAsserts cfg)
    (hw : s.last_cycles = w % 2 ^ 32) (hp : paced w cs) :
    ∃ total s', runIsrs cfg s cs = some (total, s') ∧
      total ≤ (lastCounter w cs - w) / CYCLES_PER_TICK cfg := by
  have hcpt := CYCLES_PER_TICK_pos hbuild
  have hU : (2 : Nat) ^ 32 = U32_MOD := by decide
  rw [hU] at hw
  obtain ⟨total, s', hrun, hle, _⟩ := runIsrs_cycles_le hmode hcpt cs w s hw hp
  exact ⟨total, s', hrun, (Nat.le_div_iff_mul_le hcpt).mpr hle⟩

theorem kernel_time_not_ahead_witness :
    ∃ total s', runIsrs (exampleConfig true) (exampleState 0 4294967000 0)
        [4294967150, 4294967450, 8589934000] = some (total, s') ∧
      total ≤ (lastCounter 4294967000 [4294967150, 4294967450, 8589934000] - 4294967000)
        / CYCLES_PER_TICK (exampleConfig true) :=
  kernel_time_not_ahead (exampleConfig true) (exampleState 0 4294967000 0) 4294967000
    [4294967150, 4294967450, 8589934000] rfl (by decide) (by decide)
    (by simp [paced, U32_MOD])

/-- The `u32_t` product of a non-negative tick count and `k` is the true
product when that fits 32 bits. -/
theorem mul32_toU32_of_fit (n k : Nat) (hfit : n * k < U32_MOD) :
    mul32 (toU32 (n : Int)) k = n * k := by
  rcases Nat.eq_zero_or_pos k with hk | hk
  · subst hk; simp [mul32, U32_MOD]
  · have hn : n < U32_MOD := by
      have : n * 1 ≤ n * k := Nat.mul_le_mul_left n hk
      omega
    have hu : toU32 (n : Int) = n := by
      unfold toU32; unfold U32_MOD at hn; omega
    rw [hu]
    unfold mul32
    exact Nat.mod_eq_of_lt hfit

/-- C16: `z_clock_set_timeout` never schedules a wake-up earlier than requested
when the request fits the counter: for `ticks` other than `K_TICKS_FOREVER`
with `0 ≤ ticks` and `ticks * CYCLES_PER_TICK < 2 ^ 32`, the modular distance
of the programmed match from the counter is
`max (ticks * CYCLES_PER_TICK) CYCLES_NEXT_MIN`, hence at least
`ticks * CYCLES_PER_TICK`. -/
theorem set_timeout_not_early (cfg : Config) (ticks : Int) (idle : Bool) (s : State)
    (hmode : cfg.TICKLESS_KERNEL = true) (hf : ticks ≠ cfg.K_TICKS_FOREVER)
    (h0 : 0 ≤ ticks) (hfit : ticks * (CYCLES_PER_TICK cfg : Int) < 2 ^ 32) :
    (((z_clock_set_timeout cfg ticks idle s).match_0 : Int) - s.count) % 2 ^ 32
        = max (ticks * (CYCLES_PER_TICK cfg : Int)) (CYCLES_NEXT_MIN : Int) ∧
      ticks * (CYCLES_PER_TICK cfg : Int)
        ≤ (((z_clock_set_timeout cfg ticks idle s).match_0 : Int) - s.count) % 2 ^ 32 ∧
      sub32 (z_clock_set_timeout cfg ticks idle s).match_0 s.count
        = max (ticks.toNat * CYCLES_PER_TICK cfg) CYCLES_NEXT_MIN := by
  obtain ⟨n, rfl⟩ := Int.eq_ofNat_of_zero_le h0
  have hfit2 : n * CYCLES_PER_TICK cfg < U32_MOD := by
    have : ((n * CYCLES_PER_TICK cfg : Nat) : Int) < 2 ^ 32 := by push_cast; exact hfit
    unfold U32_MOD; omega
  have hdist : sub32 (z_clock_set_timeout cfg (n : Int) idle s).match_0 s.count
      = max (n * CYCLES_PER_TICK cfg) CYCLES_NEXT_MIN := by
    rw [z_clock_set_timeout_tickless _ _ _ hmode hf, mul32_toU32_of_fit _ _ hfit2]
    simp only
    rw [sub32_update_match_value (by decide), sub32_add32_cancel hfit2]
  have hint : (((z_clock_set_timeout cfg (n : Int) idle s).match_0 : Int) - s.count) % 2 ^ 32
      = ((sub32 (z_clock_set_timeout cfg (n : Int) idle s).match_0 s.count : Nat) : Int) := by
    unfold sub32 U32_MOD; omega
  have hmax : (((max (n * CYCLES_PER_TICK cfg) CYCLES_NEXT_MIN : Nat)) : Int)
      = max ((n : Int) * (CYCLES_PER_TICK cfg : Int)) (CYCLES_NEXT_MIN : Int) := by
    push_cast; rfl
  refine ⟨by rw [hint, hdist, hmax], ?_, by simpa using hdist⟩
  rw [hint, hdist, hmax]
  exact le_max_left _ _

theorem set_timeout_not_early_witness :
    (((z_clock_set_timeout (fastClockConfig true) 4000 false
          (exampleState 4294967000 0 0)).match_0 : Int)
          - (exampleState 4294967000 0 0).count) % 2 ^ 32
        = max ((4000 : Int) * (CYCLES_PER_TICK (fastClockConfig true) : Int))
            (CYCLES_NEXT_MIN : Int) ∧
      (4000 : Int) * (CYCLES_PER_TICK (fastClockConfig true) : Int)
        ≤ (((z_clock_set_timeout (fastClockConfig true) 4000 false
            (exampleState 4294967000 0 0)).match_0 : Int)
            - (exampleState 4294967000 0 0).count) % 2 ^ 32 ∧
      sub32 (z_clock_set_timeout (fastClockConfig true) 4000 false
          (exampleState 4294967000 0 0)).match_0 (exampleState 4294967000 0 0).count
        = max ((4000 : Int).toNat * CYCLES_PER_TICK (fastClockConfig true)) CYCLES_NEXT_MIN :=
  set_timeout_not_early (fastClockConfig true) 4000 false (exampleState 4294967000 0 0)
    rfl (by decide) (by decide) (by decide)

/-- C17: the tickless interrupt handler and the elapsed query agree: on any
state `ttc_isr` announces what `z_clock_elapsed` returns on that state, and
after the handler ran at counter `c`, `z_clock_elapsed` returns 0 at every
counter `c2` with `(c2 - c) mod 2 ^ 32 < CYCLES_PER_TICK`. -/
theorem isr_elapsed_agree (cfg : Config) (s : State)
    (hmode : cfg.TICKLESS_KERNEL = true) (hcpt : 0 < CYCLES_PER_TICK cfg) :
    ∃ ticks s', ttc_isr cfg s = some (ticks, s') ∧
      (z_clock_elapsed cfg s).map Prod.fst = some ticks ∧
      ∀ c2 : Nat, ((c2 : Int) - s.count) % 2 ^ 32 < (CYCLES_PER_TICK cfg : Int) →
        (z_clock_elapsed cfg { s' with count := c2 }).map Prod.fst = some 0 := by
  have hne : CYCLES_PER_TICK cfg ≠ 0 := by omega
  refine ⟨_, _, ttc_isr_tickless_eq s hmode hcpt, ?_, ?_⟩
  · simp [z_clock_elapsed, read_count, hmode, udiv32, hne]
  · intro c2 hnear
    have hlt : sub32 c2 s.count < CYCLES_PER_TICK cfg := by
      have hint : ((sub32 c2 s.count : Nat) : Int) = ((c2 : Int) - s.count) % 2 ^ 32 := by
        unfold sub32 U32_MOD; omega
      omega
    simp [z_clock_elapsed, read_count, hmode, udiv32, hne, Nat.div_eq_of_lt hlt]

theorem isr_elapsed_agree_witness :
    ∃ ticks s', ttc_isr (exampleConfig true) (exampleState 4294967290 4294960000 0)
        = some (ticks, s') ∧
      (z_clock_elapsed (exampleConfig true) (exampleState 4294967290 4294960000 0)).map Prod.fst
        = some ticks ∧
      ∀ c2 : Nat, ((c2 : Int) - (exampleState 4294967290 4294960000 0).count) % 2 ^ 32
          < (CYCLES_PER_TICK (exampleConfig true) : Int) →
        (z_clock_elapsed (exampleConfig true) { s' with count := c2 }).map Prod.fst = some 0 :=
  isr_elapsed_agree (exampleConfig true) (exampleState 4294967290 4294960000 0) rfl (by decide)

/-- C18: closed form of the clamp.  For 32-bit `cycles` and `match_`,
`update_match` writes `(cycles + max delta CYCLES_NEXT_MIN) mod 2 ^ 32` with
`delta = (match_ - cycles) mod 2 ^ 32`; when it clamps, the written value is
`(cycles + CYCLES_NEXT_MIN) mod 2 ^ 32`, whatever the requested match; and
applying `update_match` again to its own result with the same `cycles` writes
the same value. -/
theorem update_match_closed_form (s : State) (cycles match_ : Nat)
    (hm : match_ < 2 ^ 32) :
    ((update_match cycles match_ s).match_0 : Int)
        = ((cycles : Int) + max (((match_ : Int) - cycles) % 2 ^ 32) 10000) % 2 ^ 32 ∧
      (update_match cycles match_ s).match_0
        = (cycles + max (sub32 match_ cycles) CYCLES_NEXT_MIN) % 2 ^ 32 ∧
      (sub32 match_ cycles < CYCLES_NEXT_MIN →
        (update_match cycles match_ s).match_0 = (cycles + CYCLES_NEXT_MIN) % 2 ^ 32) ∧
      update_match cycles (update_match cycles match_ s).match_0 (update_match cycles match_ s)
        = update_match cycles match_ s := by
  have hidem : update_match_value CYCLES_NEXT_MIN cycles
      (update_match_value CYCLES_NEXT_MIN cycles match_)
        = update_match_value CYCLES_NEXT_MIN cycles match_ := by
    have hdist := sub32_update_match_value (m := CYCLES_NEXT_MIN) (c := cycles) (d := match_)
      (by decide)
    have hge : ¬ sub32 (update_match_value CYCLES_NEXT_MIN cycles match_) cycles
        < CYCLES_NEXT_MIN := by
      rw [hdist]
      exact not_lt.mpr (le_max_right _ _)
    generalize update_match_value CYCLES_NEXT_MIN cycles match_ = x at hge
    unfold update_match_value
    simp only [hge, if_false]
  refine ⟨?_, ?_, ?_, ?_⟩
  · simp only [update_match, update_match_value, add32, sub32, U32_MOD, CYCLES_NEXT_MIN]
    norm_num at hm ⊢
    split <;> omega
  · simp only [update_match, update_match_value, add32, sub32, U32_MOD, CYCLES_NEXT_MIN]
    norm_num at hm ⊢
    split <;> omega
  · intro hlt
    simp only [update_match, update_match_value, add32, sub32, U32_MOD, CYCLES_NEXT_MIN] at hlt ⊢
    norm_num at hm hlt ⊢
    rw [if_pos hlt]
    omega
  · simp only [update_match, hidem]

theorem update_match_closed_form_witness :
    ((update_match 4294967000 4294967005 (exampleState 4294967000 0 0)).match_0 : Int)
        = (((4294967000 : Nat) : Int)
          + max ((((4294967005 : Nat) : Int) - (4294967000 : Nat)) % 2 ^ 32) 10000) % 2 ^ 32 ∧
      (update_match 4294967000 4294967005 (exampleState 4294967000 0 0)).match_0
        = (4294967000 + max (sub32 4294967005 4294967000) CYCLES_NEXT_MIN) % 2 ^ 32 ∧
      (sub32 4294967005 4294967000 < CYCLES_NEXT_MIN →
        (update_match 4294967000 4294967005 (exampleState 4294967000 0 0)).match_0
          = (4294967000 + CYCLES_NEXT_MIN) % 2 ^ 32) ∧
      update_match 4294967000
          (update_match 4294967000 4294967005 (exampleState 4294967000 0 0)).match_0
          (update_match 4294967000 4294967005 (exampleState 4294967000 0 0))
        = update_match 4294967000 4294967005 (exampleState 4294967000 0 0) :=
  update_match_closed_form (exampleState 4294967000 0 0) 4294967000 4294967005 (by decide)

end XlnxPsttc
